import Mathlib

/-!
Verification development for the `new-yt-backend` video pipeline.

The Python sources under `backend/` are shallowly embedded as pure Lean
functions.  External collaborators (yt-dlp, ffmpeg, ffprobe, Cloudinary)
are modelled as oracle inputs describing the outcome the external tool
reported; the control flow around those outcomes is translated line by
line from the Python.
-/

namespace Backend

/-! ### Byte-string helpers

Python's `needle in hay` on `bytes`, and `bytes.lower()`, modelled on
lists of byte values. -/

/-- Checks that `hay` begins with `needle` (byte-wise equality). -/
def listStarts {α : Type} [DecidableEq α] : List α → List α → Bool
  | [], _ => true
  | _ :: _, [] => false
  | a :: as, b :: bs => a == b && listStarts as bs

/-- Python `needle in hay` for byte strings: `needle` occurs contiguously
somewhere in `hay`. -/
def listHas {α : Type} [DecidableEq α] (needle : List α) : List α → Bool
  | [] => listStarts needle []
  | h :: t => listStarts needle (h :: t) || listHas needle t

/-- The byte values of an ASCII string literal. -/
def asciiOf (s : String) : List Nat := s.toList.map Char.toNat

/-- ASCII lower-casing of one byte, as done by Python `bytes.lower()`. -/
def lowerByte (b : Nat) : Nat := if 65 ≤ b ∧ b ≤ 90 then b + 32 else b

/-- ASCII lower-casing of a byte string. -/
def lowerBytes (bs : List Nat) : List Nat := bs.map lowerByte

namespace Utils

/-- One entry of the `streams` array reported by ffprobe. -/
structure ProbeStream where
  codec_type : String
deriving DecidableEq, Repr

/-- The parsed ffprobe JSON payload: the `streams` array and
`float(format.get('duration', 0))`. -/
structure ProbeData where
  streams : List ProbeStream
  duration : ℚ
deriving DecidableEq, Repr

/-- A local file as observed by `utils.validate_file_with_ffprobe`:
whether `os.path.exists` holds, `os.path.getsize`, the first
`min(2048, size)` bytes, and the ffprobe outcome (`none` means ffprobe
exited non-zero or its output failed to parse as JSON). -/
structure MediaFile where
  pathExists : Bool
  size : Nat
  firstBytes : List Nat
  probe : Option ProbeData
deriving DecidableEq, Repr

/-- Embedding of `utils.validate_file_with_ffprobe` (utils.py lines
71-135): existence check, 1 KiB size floor, HTML-signature check on the
first 2 KiB, error-page-indicator check on the lowercased first 2 KiB,
then the ffprobe checks (at least one video stream, duration > 0). -/
def validate_file_with_ffprobe (f : MediaFile) : Bool :=
  if !f.pathExists then false
  else if f.size < 1024 then false
  else if listHas (asciiOf ("<!DOCTYPE html>")) f.firstBytes
          || listHas (asciiOf ("<html")) f.firstBytes then false
  else if listHas (asciiOf ("error")) (lowerBytes f.firstBytes)
          || listHas (asciiOf ("blocked")) (lowerBytes f.firstBytes) then false
  else
    match f.probe with
    | none => false
    | some d =>
      if !(d.streams.any fun s => s.codec_type == ("video" : String)) then false
      else if d.duration ≤ 0 then false
      else true

/-- Spec-modelled check (a) of the Validation Gate, following the spec's
words: the file exists and its size exceeds the minimum floor (the code's
floor rejects sizes below 1024 bytes). -/
def specCheckSize (f : MediaFile) : Bool := f.pathExists && !(f.size < 1024)

/-- The code's HTML-document signatures in the first bytes. -/
def htmlDocSig (f : MediaFile) : Bool :=
  listHas (asciiOf ("<!DOCTYPE html>")) f.firstBytes
    || listHas (asciiOf ("<html")) f.firstBytes

/-- The code's error-page indicators in the lowercased first bytes. -/
def errorPageSig (f : MediaFile) : Bool :=
  listHas (asciiOf ("error")) (lowerBytes f.firstBytes)
    || listHas (asciiOf ("blocked")) (lowerBytes f.firstBytes)

/-- Spec-modelled check (b) of the Validation Gate: the first bytes match
neither an HTML-document signature nor an error-page signature. -/
def specCheckSig (f : MediaFile) : Bool := !(htmlDocSig f || errorPageSig f)

/-- Spec-modelled check (c): the probe reports at least one video stream. -/
def specCheckVideo (f : MediaFile) : Bool :=
  match f.probe with
  | none => false
  | some d => d.streams.any fun s => s.codec_type == ("video" : String)

/-- Spec-modelled check (d): the probed duration is strictly positive. -/
def specCheckDuration (f : MediaFile) : Bool :=
  match f.probe with
  | none => false
  | some d => decide (0 < d.duration)

end Utils

end Backend

namespace Backend

open Utils

/-- C4: the Validation Gate passes a file exactly when all four checks
pass — (a) existence and size floor, (b) no HTML-document or error-page
signature in the first bytes, (c) at least one probed video stream,
(d) strictly positive probed duration — with the checks combined in that
order by short-circuit conjunction. -/
theorem C4_gate_iff_four_checks (f : MediaFile) :
    validate_file_with_ffprobe f
      = (specCheckSize f && (specCheckSig f && (specCheckVideo f && specCheckDuration f))) := by
  rcases f with ⟨pe, sz, fb, pr⟩
  cases pr with
  | none =>
      simp only [validate_file_with_ffprobe, specCheckSize, specCheckSig, htmlDocSig,
        errorPageSig, specCheckVideo, specCheckDuration]
      generalize listHas (asciiOf ("<!DOCTYPE html>")) fb = a
      generalize listHas (asciiOf ("<html")) fb = b
      generalize listHas (asciiOf ("error")) (lowerBytes fb) = c
      generalize listHas (asciiOf ("blocked")) (lowerBytes fb) = e
      split_ifs <;> simp_all
  | some d =>
      simp only [validate_file_with_ffprobe, specCheckSize, specCheckSig, htmlDocSig,
        errorPageSig, specCheckVideo, specCheckDuration]
      generalize listHas (asciiOf ("<!DOCTYPE html>")) fb = a
      generalize listHas (asciiOf ("<html")) fb = b
      generalize listHas (asciiOf ("error")) (lowerBytes fb) = c
      generalize listHas (asciiOf ("blocked")) (lowerBytes fb) = e
      generalize (d.streams.any fun s => s.codec_type == ("video" : String)) = v
      split_ifs <;> simp_all [not_le]
      all_goals intros
      all_goals simp_all

/-- A concrete well-formed media file whose first bytes contain the byte
substring `ERROR` (lower-casing to `error`) but no HTML-document
signature, and whose probe reports a video stream of positive duration. -/
def errorNamedFile : Utils.MediaFile :=
  { pathExists := true
    size := 4096
    firstBytes := asciiOf ("GENUINE MEDIA ERROR FRAME DATA")
    probe := some { streams := [{ codec_type := ("video") }], duration := (7 : ℚ) } }

/-- Witness for C4 at a concrete file. -/
theorem C4_gate_iff_four_checks_witness :
    validate_file_with_ffprobe errorNamedFile
      = (specCheckSize errorNamedFile && (specCheckSig errorNamedFile
          && (specCheckVideo errorNamedFile && specCheckDuration errorNamedFile))) :=
  C4_gate_iff_four_checks errorNamedFile

/-- C9: the Validation Gate rejects any file whose first 2 KiB contain the
byte substring `error` or `blocked` case-insensitively, even when the file
exists, meets the size floor, carries no HTML-document signature, and the
probe reports a video stream with strictly positive duration. -/
theorem C9_error_page_indicator_rejects (f : MediaFile)
    (hpe : f.pathExists = true) (hsz : 1024 ≤ f.size)
    (hdoc : htmlDocSig f = false)
    (hvid : specCheckVideo f = true) (hdur : specCheckDuration f = true)
    (herr : listHas (asciiOf ("error")) (lowerBytes f.firstBytes) = true
            ∨ listHas (asciiOf ("blocked")) (lowerBytes f.firstBytes) = true) :
    validate_file_with_ffprobe f = false := by
  rcases f with ⟨pe, sz, fb, pr⟩
  simp only [htmlDocSig, Bool.or_eq_false_iff] at hdoc
  simp only at hpe hsz herr
  simp only [validate_file_with_ffprobe, hpe, Nat.not_lt.mpr hsz, hdoc.1, hdoc.2]
  rcases herr with h | h <;> simp [h]

/-- Witness for C9: a genuine media file whose header happens to contain
`ERROR` is rejected by the gate. -/
theorem C9_error_page_indicator_rejects_witness :
    validate_file_with_ffprobe errorNamedFile = false :=
  C9_error_page_indicator_rejects errorNamedFile (by decide) (by decide)
    (by decide) (by decide) (by decide) (Or.inl (by decide))

namespace Main

/-- The task statuses written by `main.py`: `pending` is set at submission,
`downloading`/`converting`/`uploading` at stage starts, and
`completed`/`failed` terminally. -/
inductive Status
  | pending
  | downloading
  | converting
  | uploading
  | completed
  | failed
deriving DecidableEq, Repr

/-- Outcome of one pipeline stage call as observed by `process_download`:
the stage returned `{"success": True, ...}` with a payload, returned
`{"success": False, "error": msg}`, or raised an exception whose string
form is `msg`. -/
inductive StageResult
  | ok (payload : String)
  | err (msg : String)
  | raised (msg : String)
deriving DecidableEq, Repr

/-- Observable effects of one `process_download` run: the sequence of
values assigned to `tasks[task_id]["status"]` (starting from the
`pending` written at submission), the final `error` and `cloudinary_url`
fields, the paths passed to `cleanup_temp_files`, the number of times
`uploader.upload` was invoked, and the local files produced by the
download and convert stages. -/
structure RunResult where
  statusTrace : List Status
  error : Option String
  cloudinary_url : Option String
  cleaned : List String
  uploadCalls : Nat
  created : List String
deriving DecidableEq, Repr

/-- Embedding of `main.process_download` (main.py lines 60-164), branch by
branch on the three stage outcomes.  The status is set to `downloading`
before the download call, `converting` before the convert call and
`uploading` before the upload call; each stage failure sets `failed` and
returns; an exception anywhere in the `try` block is caught and sets
`failed` with a message prefixed `Unexpected error: `;
`cleanup_temp_files([video_path, converted_path])` runs only after the
status was set to `completed` (and `cleanup_temp_files` itself swallows
every per-file exception, so nothing after `completed` can raise). -/
def process_download (dl cv up : StageResult) : RunResult :=
  match dl with
  | .err m =>
      ⟨[.pending, .downloading, .failed], some m, none, [], 0, []⟩
  | .raised m =>
      ⟨[.pending, .downloading, .failed], some (("Unexpected error: ") ++ m), none, [], 0, []⟩
  | .ok video_path =>
    match cv with
    | .err m =>
        ⟨[.pending, .downloading, .converting, .failed], some m, none, [], 0, [video_path]⟩
    | .raised m =>
        ⟨[.pending, .downloading, .converting, .failed],
          some (("Unexpected error: ") ++ m), none, [], 0, [video_path]⟩
    | .ok converted_path =>
      match up with
      | .err m =>
          ⟨[.pending, .downloading, .converting, .uploading, .failed],
            some m, none, [], 1, [video_path, converted_path]⟩
      | .raised m =>
          ⟨[.pending, .downloading, .converting, .uploading, .failed],
            some (("Unexpected error: ") ++ m), none, [], 1, [video_path, converted_path]⟩
      | .ok url =>
          ⟨[.pending, .downloading, .converting, .uploading, .completed],
            none, some url, [video_path, converted_path], 1, [video_path, converted_path]⟩

/-- The status edges named by the claim (spec names mapped to code names):
pending→downloading, downloading→converting, downloading→failed,
converting→uploading, converting→failed, uploading→completed,
uploading→failed. -/
def allowedEdge : Status → Status → Bool
  | .pending, .downloading => true
  | .downloading, .converting => true
  | .downloading, .failed => true
  | .converting, .uploading => true
  | .converting, .failed => true
  | .uploading, .completed => true
  | .uploading, .failed => true
  | _, _ => false

/-- Every adjacent pair of a status trace is an allowed edge. -/
def edgesOk : List Status → Bool
  | [] => true
  | [_] => true
  | a :: b :: t => allowedEdge a b && edgesOk (b :: t)

/-- Terminal statuses. -/
def terminalStatus : Status → Bool
  | .completed => true
  | .failed => true
  | _ => false

/-- No status other than the last one of the trace is terminal. -/
def noEarlyTerminal : List Status → Bool
  | [] => true
  | [_] => true
  | a :: b :: t => !terminalStatus a && noEarlyTerminal (b :: t)

/-- Files created by a run's stages that were never passed to
`cleanup_temp_files`. -/
def surviving (r : RunResult) : List String :=
  r.created.filter (fun p => !(r.cleaned.contains p))

end Main

open Main

/-- C1: every `process_download` run starts its status history at
`pending` and only ever moves along the edges
pending→downloading, downloading→converting, downloading→failed,
converting→uploading, converting→failed, uploading→completed,
uploading→failed; no terminal status (`completed` or `failed`) is ever
followed by another status write. -/
theorem C1_status_machine (dl cv up : StageResult) :
    (process_download dl cv up).statusTrace.head? = some Status.pending
    ∧ edgesOk (process_download dl cv up).statusTrace = true
    ∧ noEarlyTerminal (process_download dl cv up).statusTrace = true := by
  cases dl <;> cases cv <;> cases up <;>
    simp [process_download, edgesOk, allowedEdge, noEarlyTerminal, terminalStatus]

/-- Witness for C1 at one concrete run. -/
theorem C1_status_machine_witness :
    edgesOk (process_download (.ok ("temp/t_temp.mp4"))
      (.err ("All conversion methods failed")) (.ok ("u"))).statusTrace = true :=
  (C1_status_machine _ _ _).2.1

/-- Counterexample for C2: a run whose convert stage fails ends `failed`
with the downloaded file never passed to `cleanup_temp_files` — a
surviving local file handle. -/
theorem C2_cleanup_counterexample :
    (process_download (.ok ("temp/t1_temp.mp4"))
        (.err ("All conversion methods failed")) (.ok ("u"))).statusTrace.getLast?
      = some Status.failed
    ∧ surviving (process_download (.ok ("temp/t1_temp.mp4"))
        (.err ("All conversion methods failed")) (.ok ("u")))
      = [("temp/t1_temp.mp4")] := by
  constructor <;> rfl

/-- The caught-exception error message is never the empty string. -/
theorem unexpected_ne_empty (m : String) : ("Unexpected error: ") ++ m ≠ "" := by
  intro h
  have h2 := congrArg String.length h
  rw [String.length_append] at h2
  have h3 : ("Unexpected error: ").length = 18 := rfl
  rw [h3] at h2
  simp at h2

/-- C2 (amended): a run that ends `failed` records an error but passes no
file at all to `cleanup_temp_files`; only a run that ends `completed`
cleans up, and then it cleans exactly the files its stages created. -/
theorem C2_cleanup_only_on_success (dl cv up : StageResult)
    (hd : ∀ m, dl = StageResult.err m → m ≠ "")
    (hc : ∀ m, cv = StageResult.err m → m ≠ "")
    (hu : ∀ m, up = StageResult.err m → m ≠ "") :
    ((process_download dl cv up).statusTrace.getLast? = some Status.failed →
       (process_download dl cv up).cleaned = []
       ∧ ∃ e, (process_download dl cv up).error = some e ∧ e ≠ "")
    ∧ ((process_download dl cv up).statusTrace.getLast? = some Status.completed →
       (process_download dl cv up).cleaned = (process_download dl cv up).created
       ∧ (process_download dl cv up).error = none) := by
  cases dl with
  | err m =>
      exact ⟨fun _ => ⟨rfl, m, rfl, hd m rfl⟩, fun h => by simp [process_download] at h⟩
  | raised m =>
      exact ⟨fun _ => ⟨rfl, _, rfl, unexpected_ne_empty m⟩, fun h => by simp [process_download] at h⟩
  | ok v =>
      cases cv with
      | err m =>
          exact ⟨fun _ => ⟨rfl, m, rfl, hc m rfl⟩, fun h => by simp [process_download] at h⟩
      | raised m =>
          exact ⟨fun _ => ⟨rfl, _, rfl, unexpected_ne_empty m⟩, fun h => by simp [process_download] at h⟩
      | ok c =>
          cases up with
          | err m =>
              exact ⟨fun _ => ⟨rfl, m, rfl, hu m rfl⟩, fun h => by simp [process_download] at h⟩
          | raised m =>
              exact ⟨fun _ => ⟨rfl, _, rfl, unexpected_ne_empty m⟩, fun h => by simp [process_download] at h⟩
          | ok u =>
              exact ⟨fun h => by simp [process_download] at h, fun _ => ⟨rfl, rfl⟩⟩

/-- Witness for C2 (amended) at a run failing in the convert stage. -/
theorem C2_cleanup_only_on_success_witness :
    (process_download (.ok ("v")) (.err ("boom")) (.ok ("u"))).cleaned = []
    ∧ ∃ e, (process_download (.ok ("v")) (.err ("boom")) (.ok ("u"))).error = some e
        ∧ e ≠ "" :=
  (C2_cleanup_only_on_success (.ok ("v")) (.err ("boom")) (.ok ("u"))
    (by intro m h; cases h) (by intro m h; cases h; decide)
    (by intro m h; cases h)).1 (by decide)

/-- C3: `uploader.upload` is invoked at most once per `process_download`
run, and exactly once on a run that ends `completed`; a failed upload is
never retried within the run. -/
theorem C3_upload_at_most_once (dl cv up : StageResult) :
    (process_download dl cv up).uploadCalls ≤ 1
    ∧ ((process_download dl cv up).statusTrace.getLast? = some Status.completed →
        (process_download dl cv up).uploadCalls = 1) := by
  cases dl <;> cases cv <;> cases up <;> simp [process_download]

/-- Witness for C3 at a fully successful run. -/
theorem C3_upload_at_most_once_witness :
    (process_download (.ok ("v")) (.ok ("c")) (.ok ("http:u"))).uploadCalls ≤ 1 :=
  (C3_upload_at_most_once _ _ _).1

namespace Convert

/-- One codec-tier attempt of `VideoConverter` as observed by
`_convert_hevc` / `_convert_h264` / `_remux`: whether the ffmpeg process
exited with code 0, whether `os.path.exists(output_path)` holds
afterwards, and the produced output file as seen by the Validation Gate.
An ffmpeg invocation that raised is indistinguishable from a non-zero
exit (both return `False` from the helper). -/
structure TierAttempt where
  rcZero : Bool
  outExists : Bool
  output : Utils.MediaFile
deriving DecidableEq, Repr

/-- Result of one tier helper (convert.py lines 64-67, 95-98, 122-125):
`True` only when ffmpeg exited 0, the output exists, and the output
passes `validate_file_with_ffprobe`. -/
def tierOk (t : TierAttempt) : Bool :=
  t.rcZero && t.outExists && Utils.validate_file_with_ffprobe t.output

/-- The three codec tiers, in the order `convert` tries them. -/
inductive Tier
  | hevc
  | h264
  | remux
deriving DecidableEq, Repr

/-- Result of `VideoConverter.convert`: the returned dict, plus the list
of tiers that were actually attempted, in order. -/
structure ConvertResult where
  success : Bool
  file_path : Option String
  error : Option String
  attempted : List Tier
deriving DecidableEq, Repr

/-- Embedding of `VideoConverter.convert` (convert.py lines 11-40): the
input is validated first; then HEVC, H.264 and remux are tried in that
order, each short-circuiting on success; if all three fail the dict
`{"success": False, "error": "All conversion methods failed"}` is
returned. -/
def convert (input : Utils.MediaFile) (output_path : String)
    (hevcA h264A remuxA : TierAttempt) : ConvertResult :=
  if !Utils.validate_file_with_ffprobe input then
    ⟨false, none, some ("Input file is not a valid video"), []⟩
  else if tierOk hevcA then
    ⟨true, some output_path, none, [.hevc]⟩
  else if tierOk h264A then
    ⟨true, some output_path, none, [.hevc, .h264]⟩
  else if tierOk remuxA then
    ⟨true, some output_path, none, [.hevc, .h264, .remux]⟩
  else
    ⟨false, none, some ("All conversion methods failed"), [.hevc, .h264, .remux]⟩

end Convert

open Convert

/-- C5: `convert` tries the tiers HEVC, H.264, remux strictly in that
order — the attempted list is always a prefix of `[hevc, h264, remux]`,
so each tier runs at most once; a tier counts as successful only if the
Validation Gate passes its output, regardless of ffmpeg's exit signal, so
a gate-failing output falls through to the next tier; the run succeeds
exactly when the input was valid and some tier passed the gate; and if
the input was valid but all three tiers failed, the job fails with the
`All conversion methods failed` error. -/
theorem C5_tier_order_and_validation (input : Utils.MediaFile) (output_path : String)
    (hevcA h264A remuxA : TierAttempt) :
    ((convert input output_path hevcA h264A remuxA).attempted = []
      ∨ (convert input output_path hevcA h264A remuxA).attempted = [Tier.hevc]
      ∨ (convert input output_path hevcA h264A remuxA).attempted = [Tier.hevc, Tier.h264]
      ∨ (convert input output_path hevcA h264A remuxA).attempted
          = [Tier.hevc, Tier.h264, Tier.remux])
    ∧ (∀ t : TierAttempt, Utils.validate_file_with_ffprobe t.output = false →
        tierOk t = false)
    ∧ ((convert input output_path hevcA h264A remuxA).success
        = (Utils.validate_file_with_ffprobe input
            && (tierOk hevcA || tierOk h264A || tierOk remuxA)))
    ∧ (Utils.validate_file_with_ffprobe input = true →
        tierOk hevcA = false → tierOk h264A = false → tierOk remuxA = false →
        (convert input output_path hevcA h264A remuxA).error
          = some ("All conversion methods failed")) := by
  refine ⟨?_, ?_, ?_, ?_⟩
  · simp only [convert]
    split_ifs <;> simp
  · intro t h
    simp [tierOk, h]
  · simp only [convert]
    split_ifs <;> simp_all
  · intro hin h1 h2 h3
    simp [convert, hin, h1, h2, h3]

/-- Witness for C5: a valid input whose HEVC and H.264 outputs fail the
gate (zero-size outputs) and whose remux output passes. -/
def validInput : Utils.MediaFile :=
  { pathExists := true
    size := 2048
    firstBytes := asciiOf ("RIFFmp4data")
    probe := some { streams := [{ codec_type := ("video") }], duration := (9 : ℚ) } }

/-- A tier attempt whose engine reported success but produced an empty,
gate-failing output. -/
def emptyOutputAttempt : Convert.TierAttempt :=
  { rcZero := true
    outExists := true
    output := { pathExists := true, size := 0, firstBytes := [], probe := none } }

/-- A tier attempt whose output passes the gate. -/
def goodOutputAttempt : Convert.TierAttempt :=
  { rcZero := true
    outExists := true
    output := validInput }

/-- Witness for C5: with gate-failing HEVC/H.264 outputs and a
gate-passing remux output, all three tiers are attempted in order and
the run succeeds. -/
theorem C5_tier_order_and_validation_witness :
    (convert validInput ("converted/v_converted.mp4")
        emptyOutputAttempt emptyOutputAttempt goodOutputAttempt).attempted
      = [Tier.hevc, Tier.h264, Tier.remux]
    ∧ tierOk emptyOutputAttempt = false := by
  constructor
  · have h := (C5_tier_order_and_validation validInput ("converted/v_converted.mp4")
      emptyOutputAttempt emptyOutputAttempt goodOutputAttempt).1
    rcases h with h | h | h | h <;> first | exact h | (exfalso; revert h; decide)
  · exact (C5_tier_order_and_validation validInput ("converted/v_converted.mp4")
      emptyOutputAttempt emptyOutputAttempt goodOutputAttempt).2.1
      emptyOutputAttempt (by decide)

namespace Downloader

/-- Base rate-limiting delay computed in `VideoDownloader.get_ydl_opts`
(downloader.py line 134): `5 + failed_attempts * 10` seconds. -/
def base_delay (failed_attempts : Nat) : Nat := 5 + failed_attempts * 10

/-- One download attempt as observed by the loop body of
`VideoDownloader.download_video`: either some step raised with message
`msg`, or yt-dlp returned and the glob found `files` (paths with sizes),
with `probeOk` the verdict of `validate_video_file` on the largest one. -/
inductive FetchAttempt
  | raisedMsg (msg : String)
  | fetched (files : List (String × Nat)) (probeOk : Bool)
deriving DecidableEq, Repr

/-- Python `max(files, key=size)`: the first file of maximal size. -/
def largestFile (f : String × Nat) (fs : List (String × Nat)) : String × Nat :=
  fs.foldl (fun a b => if b.2 > a.2 then b else a) f

/-- Result of the body of one download attempt (downloader.py lines
329-430): the successful path, or the message of the exception that was
raised (no file found, empty file, invalid file, or a propagated yt-dlp
error). -/
inductive BodyResult
  | okPath (path : String)
  | errMsg (msg : String)
deriving DecidableEq, Repr

/-- Evaluates one attempt body. -/
def attemptEval : FetchAttempt → BodyResult
  | .raisedMsg m => .errMsg m
  | .fetched [] _ => .errMsg ("Download completed but no file was created")
  | .fetched (f :: fs) probeOk =>
    if (largestFile f fs).2 = 0 then .errMsg ("Downloaded file is empty")
    else if !probeOk then .errMsg ("Downloaded file is not a valid video file")
    else .okPath (largestFile f fs).1

/-- The retry test of the exception handler (downloader.py line 448):
only errors whose lowercased text contains `rate limited` or `bot` are
retried. -/
def retryable (msg : String) : Bool :=
  listHas (asciiOf ("rate limited")) (lowerBytes (asciiOf msg))
    || listHas (asciiOf ("bot")) (lowerBytes (asciiOf msg))

/-- Observable outcome of a `download_video` (or `extract_info`) run: the
result, the number of attempts started, the value of the shared
`failed_attempts` counter at the start of each attempt (the value
`get_ydl_opts` reads to compute the delay), and its value when the run
returns. -/
structure DLRun where
  result : BodyResult
  attemptsMade : Nat
  faBefore : List Nat
  finalFA : Nat
deriving DecidableEq, Repr

/-- The retry loop of `VideoDownloader.download_video` (downloader.py
lines 328-457), with `fuel = max_retries - retry_count` making the while
loop structural: on success the shared counter resets to 0; on an
exception the counter increments, and the loop continues only while
`retry_count < max_retries` and the error text is retryable — otherwise
the last error is re-raised. -/
def dlLoop (att : Nat → FetchAttempt) : Nat → Nat → Nat → DLRun
  | 0, _, fa => ⟨.errMsg ("Max retries exceeded"), 0, [], fa⟩
  | fuel + 1, rc, fa =>
    match attemptEval (att rc) with
    | .okPath p => ⟨.okPath p, 1, [fa], 0⟩
    | .errMsg m =>
      if rc + 1 < 3 && retryable m then
        let rest := dlLoop att fuel (rc + 1) (fa + 1)
        ⟨rest.result, rest.attemptsMade + 1, fa :: rest.faBefore, rest.finalFA⟩
      else ⟨.errMsg m, 1, [fa], fa + 1⟩

/-- `VideoDownloader.download_video`, entered with `retry_count = 0`,
`max_retries = 3`, and the current shared `failed_attempts` value. -/
def download_video (att : Nat → FetchAttempt) (fa0 : Nat) : DLRun :=
  dlLoop att 3 0 fa0

/-- One extraction attempt of `VideoDownloader.extract_info`: the inner
`_extract` either raised with message `msg` or returned the info dict. -/
inductive ExtractAttempt
  | raisedMsg (msg : String)
  | infoOk
deriving DecidableEq, Repr

/-- The retry loop of `VideoDownloader.extract_info` (downloader.py lines
248-317): same shape as the download loop — reset the shared counter on
success, increment it on every failure, retry only rate-limit/bot
errors. -/
def exLoop (att : Nat → ExtractAttempt) : Nat → Nat → Nat → DLRun
  | 0, _, fa => ⟨.errMsg ("Max retries exceeded"), 0, [], fa⟩
  | fuel + 1, rc, fa =>
    match att rc with
    | .infoOk => ⟨.okPath ("info"), 1, [fa], 0⟩
    | .raisedMsg m =>
      if rc + 1 < 3 && retryable m then
        let rest := exLoop att fuel (rc + 1) (fa + 1)
        ⟨rest.result, rest.attemptsMade + 1, fa :: rest.faBefore, rest.finalFA⟩
      else ⟨.errMsg m, 1, [fa], fa + 1⟩

/-- `VideoDownloader.extract_info`, entered with `retry_count = 0` and
the current shared `failed_attempts` value. -/
def extract_info (att : Nat → ExtractAttempt) (fa0 : Nat) : DLRun :=
  exLoop att 3 0 fa0

end Downloader

open Downloader

/-- In the download loop the counter value read before attempt `i` is
`fa + i`: every failed attempt increments the shared counter by one. -/
theorem dlLoop_faBefore (att : Nat → FetchAttempt) :
    ∀ fuel rc fa, (dlLoop att fuel rc fa).faBefore
      = List.range' fa (dlLoop att fuel rc fa).attemptsMade := by
  intro fuel
  induction fuel with
  | zero => intro rc fa; rfl
  | succ n ih =>
      intro rc fa
      simp only [dlLoop]
      cases attemptEval (att rc) with
      | okPath p => rfl
      | errMsg m =>
          by_cases h : (rc + 1 < 3 && retryable m) = true
          · simp only [h, if_pos]
            simp [ih (rc + 1) (fa + 1), List.range'_succ]
          · simp only [h]
            simp [List.range'_succ]

/-- Same fact for the extraction loop. -/
theorem exLoop_faBefore (att : Nat → ExtractAttempt) :
    ∀ fuel rc fa, (exLoop att fuel rc fa).faBefore
      = List.range' fa (exLoop att fuel rc fa).attemptsMade := by
  intro fuel
  induction fuel with
  | zero => intro rc fa; rfl
  | succ n ih =>
      intro rc fa
      simp only [exLoop]
      cases att rc with
      | infoOk => rfl
      | raisedMsg m =>
          by_cases h : (rc + 1 < 3 && retryable m) = true
          · simp only [h, if_pos]
            simp [ih (rc + 1) (fa + 1), List.range'_succ]
          · simp only [h]
            simp [List.range'_succ]

/-- A successful download run resets the shared counter to zero. -/
theorem dlLoop_reset_on_success (att : Nat → FetchAttempt) :
    ∀ fuel rc fa p, (dlLoop att fuel rc fa).result = BodyResult.okPath p →
      (dlLoop att fuel rc fa).finalFA = 0 := by
  intro fuel
  induction fuel with
  | zero => intro rc fa p h; cases h
  | succ n ih =>
      intro rc fa p h
      simp only [dlLoop] at h ⊢
      cases hA : attemptEval (att rc) with
      | okPath q => simp [hA]
      | errMsg m =>
          simp only [hA] at h ⊢
          by_cases hr : (rc + 1 < 3 && retryable m) = true
          · simp only [hr, if_pos] at h ⊢
            exact ih (rc + 1) (fa + 1) p h
          · simp only [hr] at h
            simp at h

/-- A successful extraction run resets the shared counter to zero. -/
theorem exLoop_reset_on_success (att : Nat → ExtractAttempt) :
    ∀ fuel rc fa p, (exLoop att fuel rc fa).result = BodyResult.okPath p →
      (exLoop att fuel rc fa).finalFA = 0 := by
  intro fuel
  induction fuel with
  | zero => intro rc fa p h; cases h
  | succ n ih =>
      intro rc fa p h
      simp only [exLoop] at h ⊢
      cases hA : att rc with
      | infoOk => simp [hA]
      | raisedMsg m =>
          simp only [hA] at h ⊢
          by_cases hr : (rc + 1 < 3 && retryable m) = true
          · simp only [hr, if_pos] at h ⊢
            exact ih (rc + 1) (fa + 1) p h
          · simp only [hr] at h
            simp at h

/-- A download run with no successful attempt leaves the shared counter
increased by exactly the number of (failed) attempts it made. -/
theorem dlLoop_increment_on_failure (att : Nat → FetchAttempt) :
    ∀ fuel rc fa, (∀ p, (dlLoop att fuel rc fa).result ≠ BodyResult.okPath p) →
      (dlLoop att fuel rc fa).finalFA = fa + (dlLoop att fuel rc fa).attemptsMade := by
  intro fuel
  induction fuel with
  | zero => intro rc fa _; rfl
  | succ n ih =>
      intro rc fa h
      simp only [dlLoop] at h ⊢
      cases hA : attemptEval (att rc) with
      | okPath q =>
          simp only [hA] at h
          exact absurd rfl (h q)
      | errMsg m =>
          simp only [hA] at h ⊢
          by_cases hr : (rc + 1 < 3 && retryable m) = true
          · simp only [hr, if_pos] at h ⊢
            have := ih (rc + 1) (fa + 1) h
            omega
          · simp only [hr]
            simp

/-- C7: the pre-attempt delay base grows monotonically with the shared
`failed_attempts` counter (`base_delay f = 5 + f * 10`); within both the
download and the extraction retry loops the counter value read before
attempt `i` is the entry value plus `i` (every failed attempt increments
the shared counter by one), a successful attempt resets the counter to
zero, and a run with no successful attempt leaves the counter increased
by exactly the number of failed attempts — so the counter carried from
any job's failures raises the delay of every later attempt by any job. -/
theorem C7_global_backoff :
    (∀ f g : Nat, f ≤ g → base_delay f ≤ base_delay g)
    ∧ (∀ (att : Nat → FetchAttempt) (fa0 : Nat),
        (download_video att fa0).faBefore
          = List.range' fa0 (download_video att fa0).attemptsMade)
    ∧ (∀ (att : Nat → FetchAttempt) (fa0 : Nat) (p : String),
        (download_video att fa0).result = BodyResult.okPath p →
        (download_video att fa0).finalFA = 0)
    ∧ (∀ (att : Nat → FetchAttempt) (fa0 : Nat),
        (∀ p, (download_video att fa0).result ≠ BodyResult.okPath p) →
        (download_video att fa0).finalFA
          = fa0 + (download_video att fa0).attemptsMade)
    ∧ (∀ (att : Nat → ExtractAttempt) (fa0 : Nat),
        (extract_info att fa0).faBefore
          = List.range' fa0 (extract_info att fa0).attemptsMade)
    ∧ (∀ (att : Nat → ExtractAttempt) (fa0 : Nat) (p : String),
        (extract_info att fa0).result = BodyResult.okPath p →
        (extract_info att fa0).finalFA = 0) := by
  refine ⟨?_, ?_, ?_, ?_, ?_, ?_⟩
  · intro f g h
    simp only [base_delay]
    omega
  · intro att fa0
    exact dlLoop_faBefore att 3 0 fa0
  · intro att fa0 p h
    exact dlLoop_reset_on_success att 3 0 fa0 p h
  · intro att fa0 h
    exact dlLoop_increment_on_failure att 3 0 fa0 h
  · intro att fa0
    exact exLoop_faBefore att 3 0 fa0
  · intro att fa0 p h
    exact exLoop_reset_on_success att 3 0 fa0 p h

/-- A run in which every attempt raises a rate-limit error. -/
def rateLimitedAtt : Nat → FetchAttempt := fun _ => .raisedMsg ("Rate limited")

/-- Witness for C7: with every attempt rate-limited and the shared counter
entering at 4, the three attempts read counter values 4, 5, 6 — so their
delay bases 45, 55, 65 grow — and the run leaves the counter at 7. -/
theorem C7_global_backoff_witness :
    base_delay 4 ≤ base_delay 6
    ∧ (download_video rateLimitedAtt 4).faBefore
        = List.range' 4 (download_video rateLimitedAtt 4).attemptsMade := by
  constructor
  · exact C7_global_backoff.1 4 6 (by decide)
  · exact C7_global_backoff.2.1 rateLimitedAtt 4

/-- A run in which every attempt's fetch reports success but the
downloaded file fails validation (`validate_video_file` returns False on
a non-empty file). -/
def gateFailedAtt : Nat → FetchAttempt :=
  fun _ => .fetched [(("temp/j1_temp.mp4"), 5000)] false

/-- Counterexample for C6: when the fetch succeeds but the file fails
validation, `download_video` makes exactly one attempt and aborts with
the validation error — it does not advance to another strategy and does
not surface an exhaustion error. -/
theorem C6_gate_failure_counterexample :
    (download_video gateFailedAtt 0).result
      = BodyResult.errMsg ("Downloaded file is not a valid video file")
    ∧ (download_video gateFailedAtt 0).attemptsMade = 1 := by
  constructor <;> rfl

/-- C6 (amended): an attempt whose fetch reports success but whose file
fails validation raises `Downloaded file is not a valid video file`;
since that text contains neither `rate limited` nor `bot`, the handler
treats it as non-retryable, so the run aborts after that single attempt
with that error (incrementing the shared failure counter once) instead
of advancing to another strategy or ending with an exhaustion error. -/
theorem C6_gate_failure_aborts (att : Nat → FetchAttempt) (fa0 : Nat)
    (f : String × Nat) (fs : List (String × Nat))
    (h : att 0 = FetchAttempt.fetched (f :: fs) false)
    (hsz : (largestFile f fs).2 ≠ 0) :
    download_video att fa0
      = ⟨BodyResult.errMsg ("Downloaded file is not a valid video file"),
          1, [fa0], fa0 + 1⟩ := by
  have hb : attemptEval (att 0)
      = BodyResult.errMsg ("Downloaded file is not a valid video file") := by
    rw [h]
    simp [attemptEval, hsz]
  have hr : retryable ("Downloaded file is not a valid video file") = false := by decide
  simp [download_video, dlLoop, hb, hr]

/-- Witness for C6 (amended) at the concrete gate-failing run. -/
theorem C6_gate_failure_aborts_witness :
    download_video gateFailedAtt 7
      = ⟨BodyResult.errMsg ("Downloaded file is not a valid video file"),
          1, [7], 8⟩ :=
  C6_gate_failure_aborts gateFailedAtt 7 (("temp/j1_temp.mp4"), 5000) []
    rfl (by decide)

namespace Main

/-- One entry of the in-memory `tasks` dict. -/
structure Task where
  status : Status
  progress : Option String
  error : Option String
  cloudinary_url : Option String
deriving DecidableEq, Repr

/-- The dict value written at submission (main.py lines 179-184). -/
def initTask : Task :=
  { status := .pending
    progress := some ("Initializing...")
    error := none
    cloudinary_url := none }

/-- Python dict assignment `tasks[task_id] = {...}`: replace the entry if
the key is present, append it otherwise. -/
def setTask (id : String) (t : Task) : List (String × Task) → List (String × Task)
  | [] => [(id, t)]
  | (k, v) :: rest => if k = id then (k, t) :: rest else (k, v) :: setTask id t rest

/-- Python dict lookup `tasks[task_id]`. -/
def lookupTask (id : String) (tbl : List (String × Task)) : Option Task :=
  (tbl.find? (fun p => p.1 == id)).map (fun p => p.2)

/-- Embedding of the job-creation part of the `/api/download` handler
`main.download_video` (main.py lines 176-189): store a fresh Pending
entry under `task_id` unconditionally and answer
`{"task_id": task_id, "status": "pending"}`.  There is no duplicate
check and no error path. -/
def download_video_endpoint (task_id : String) (tbl : List (String × Task)) :
    List (String × Task) × (String × String) :=
  (setTask task_id initTask tbl, (task_id, ("pending")))

end Main

/-- Setting a key and looking it up yields the value just written. -/
theorem lookupTask_setTask (id : String) (t : Main.Task) :
    ∀ tbl, Main.lookupTask id (Main.setTask id t tbl) = some t := by
  intro tbl
  induction tbl with
  | nil => simp [Main.setTask, Main.lookupTask, List.find?]
  | cons p rest ih =>
      rcases p with ⟨k, v⟩
      by_cases h : k = id
      · simp [Main.setTask, h, Main.lookupTask, List.find?]
      · simp only [Main.setTask, if_neg h]
        simp only [Main.lookupTask, List.find?] at ih ⊢
        have hk : (k == id) = false := by simp [h]
        simp [hk, ih]

/-- The completed entry an earlier job left in the `tasks` table. -/
def oldDoneTask : Main.Task :=
  { status := .completed
    progress := some ("Completed successfully!")
    error := none
    cloudinary_url := some ("https:u") }

/-- Counterexample for C8: creating a job under an identifier that is
already in the table does not fail with any duplicate error — the handler
answers `pending` as always — and the existing entry is overwritten, not
left unchanged. -/
theorem C8_duplicate_counterexample :
    (Main.download_video_endpoint ("a") [(("a"), oldDoneTask)]).2 = (("a"), ("pending"))
    ∧ Main.lookupTask ("a") (Main.download_video_endpoint ("a") [(("a"), oldDoneTask)]).1
        = some Main.initTask
    ∧ Main.initTask ≠ oldDoneTask := by
  refine ⟨rfl, ?_, by decide⟩
  rfl

/-- C8 (amended): job creation stores a Pending entry under the generated
identifier unconditionally, overwriting any existing entry with that
identifier, and always answers `pending`; no duplicate-identifier check
exists. -/
theorem C8_create_overwrites (task_id : String) (tbl : List (String × Main.Task)) :
    Main.lookupTask task_id (Main.download_video_endpoint task_id tbl).1
      = some Main.initTask
    ∧ (Main.download_video_endpoint task_id tbl).2 = (task_id, ("pending")) := by
  exact ⟨lookupTask_setTask task_id Main.initTask tbl, rfl⟩

/-- Witness for C8 (amended) at a table already holding the identifier. -/
theorem C8_create_overwrites_witness :
    Main.lookupTask ("b") (Main.download_video_endpoint ("b") [(("b"), oldDoneTask)]).1
      = some Main.initTask :=
  (C8_create_overwrites ("b") [(("b"), oldDoneTask)]).1

namespace Uploader

/-- The outcome of the external `cloudinary.uploader.upload` call: it
raised, or returned a dict whose `secure_url` is absent or present. -/
inductive CloudResp
  | raisedMsg (m : String)
  | returned (secure_url : Option String)
deriving DecidableEq, Repr

/-- The dict `CloudinaryUploader.upload` returns. -/
inductive UploadResult
  | ok (url : String)
  | err (msg : String)
deriving DecidableEq, Repr

/-- Embedding of `CloudinaryUploader.upload` (cloudinary_uploader.py
lines 17-42): files over `100 * 1024 * 1024` bytes are rejected before
the external service is contacted; the second component records whether
`cloudinary.uploader.upload` was invoked. -/
def upload (file_size : Nat) (resp : CloudResp) : UploadResult × Bool :=
  if file_size > 100 * 1024 * 1024 then
    (.err ("File too large (max 100MB)"), false)
  else
    match resp with
    | .raisedMsg m => (.err (("Upload failed: ") ++ m), true)
    | .returned none => (.err ("Failed to get upload URL"), true)
    | .returned (some u) => (.ok u, true)

end Uploader

open Uploader

/-- C10: a file larger than 100 MiB (104857600 bytes) is rejected by
`upload` with the error `File too large (max 100MB)` without the external
upload service ever being invoked, and a pipeline run whose upload stage
returns that failure ends with status `failed` carrying that error. -/
theorem C10_size_limit (file_size : Nat) (resp : CloudResp)
    (h : 104857600 < file_size) :
    upload file_size resp = (UploadResult.err ("File too large (max 100MB)"), false)
    ∧ (∀ v c : String,
        (process_download (.ok v) (.ok c)
            (.err ("File too large (max 100MB)"))).statusTrace.getLast?
          = some Status.failed
        ∧ (process_download (.ok v) (.ok c)
            (.err ("File too large (max 100MB)"))).error
          = some ("File too large (max 100MB)")) := by
  constructor
  · have h100 : (100 * 1024 * 1024 : Nat) = 104857600 := by norm_num
    simp only [upload, h100]
    rw [if_pos h]
  · intro v c
    exact ⟨rfl, rfl⟩

/-- Witness for C10 one byte over the limit. -/
theorem C10_size_limit_witness :
    upload 104857601 (CloudResp.returned (some ("https:u")))
      = (UploadResult.err ("File too large (max 100MB)"), false) :=
  (C10_size_limit 104857601 (CloudResp.returned (some ("https:u"))) (by decide)).1

end Backend
